import Mathlib

/-!
Shallow embedding of the Vex AI Assistant front-end script
(`static/script.js`) and proofs about its command-console behaviour.

The script wires DOM events to three pieces of logic:
  * `sendCmd`        : validates the command input, POSTs it to
                       `/api/command`, and renders the reply or an error;
  * the launch-button listener : POSTs to `/api/launch` and renders a
                       status string or a failure message;
  * the theme-toggle listener  : flips the `light` class on the body and
                       the hero container and recolors the status text.

The browser environment (fetch outcomes, `JSON.parse`, thrown error
objects) is modelled explicitly; the DOM state touched by the script is
collected in a `UIState` record.
-/

namespace VexUI

/-- JSON values as produced by the browser builtin `JSON.parse`. -/
inductive JVal where
  | jnull
  | jbool (b : Bool)
  | jnum (n : Int)
  | jstr (s : String)
  | jarr (elems : List JVal)
  | jobj (fields : List (String × JVal))
  deriving Repr

/-- The `{` character, written via its code point. -/
def lbrace : Char := Char.ofNat 123

/-- The `}` character, written via its code point. -/
def rbrace : Char := Char.ofNat 125

/-- JSON insignificant whitespace. -/
def isJsonWs (c : Char) : Bool :=
  c = ' ' || c = '\t' || c = '\n' || c = '\r'

/-- Drop leading JSON whitespace. -/
def skipWs : List Char → List Char
  | [] => []
  | c :: cs => if isJsonWs c then skipWs cs else c :: cs

/-- Decode a single-character JSON string escape (after the backslash).
`\uXXXX` escapes are outside the modelled subset. -/
def escChar (c : Char) : Option Char :=
  if c = '"' then some '"'
  else if c = '\\' then some '\\'
  else if c = '/' then some '/'
  else if c = 'n' then some '\n'
  else if c = 't' then some '\t'
  else if c = 'r' then some '\r'
  else if c = 'b' then some (Char.ofNat 8)
  else if c = 'f' then some (Char.ofNat 12)
  else none

/-- Parse the body of a JSON string after the opening quote, returning the
decoded string and the remaining input after the closing quote. -/
def parseStringBody : List Char → Option (String × List Char)
  | [] => none
  | c :: cs =>
    if c = '"' then some ("", cs)
    else if c = '\\' then
      match cs with
      | [] => none
      | e :: cs2 =>
        match escChar e with
        | none => none
        | some ch =>
          match parseStringBody cs2 with
          | none => none
          | some (s, rest) => some (⟨ch :: s.data⟩, rest)
    else if c.toNat < 32 then none
    else
      match parseStringBody cs with
      | none => none
      | some (s, rest) => some (⟨c :: s.data⟩, rest)

/-- Accumulate decimal digits into a natural number. -/
def digitsToNat : List Char → Nat → Nat
  | [], acc => acc
  | c :: cs, acc => digitsToNat cs (acc * 10 + (c.toNat - 48))

/-- Parse an integral JSON number (optional minus sign, then digits).
Fractions and exponents are outside the modelled subset. -/
def parseNumber (cs : List Char) : Option (Int × List Char) :=
  let (neg, cs1) :=
    match cs with
    | c :: rest => if c = '-' then (true, rest) else (false, cs)
    | [] => (false, cs)
  match List.span Char.isDigit cs1 with
  | ([], _) => none
  | (ds, rest) =>
    let n : Int := Int.ofNat (digitsToNat ds 0)
    some (if neg then -n else n, rest)

mutual

/-- Fueled parser for one JSON value; fuel bounds the nesting depth. -/
def parseValue : Nat → List Char → Option (JVal × List Char)
  | 0, _ => none
  | fuel + 1, cs =>
    match skipWs cs with
    | [] => none
    | c :: cs1 =>
      if c = '"' then
        match parseStringBody cs1 with
        | none => none
        | some (s, rest) => some (JVal.jstr s, rest)
      else if c = lbrace then
        match skipWs cs1 with
        | [] => none
        | c2 :: cs2 =>
          if c2 = rbrace then some (JVal.jobj [], cs2)
          else
            match parseFields fuel (c2 :: cs2) with
            | none => none
            | some (fs, rest) => some (JVal.jobj fs, rest)
      else if c = '[' then
        match skipWs cs1 with
        | [] => none
        | c2 :: cs2 =>
          if c2 = ']' then some (JVal.jarr [], cs2)
          else
            match parseElems fuel (c2 :: cs2) with
            | none => none
            | some (vs, rest) => some (JVal.jarr vs, rest)
      else if c = 'n' then
        match cs1 with
        | 'u' :: 'l' :: 'l' :: rest => some (JVal.jnull, rest)
        | _ => none
      else if c = 't' then
        match cs1 with
        | 'r' :: 'u' :: 'e' :: rest => some (JVal.jbool true, rest)
        | _ => none
      else if c = 'f' then
        match cs1 with
        | 'a' :: 'l' :: 's' :: 'e' :: rest => some (JVal.jbool false, rest)
        | _ => none
      else if c = '-' || c.isDigit then
        match parseNumber (c :: cs1) with
        | none => none
        | some (n, rest) => some (JVal.jnum n, rest)
      else none

/-- Parse a non-empty comma-separated list of array elements followed by
the closing bracket. -/
def parseElems : Nat → List Char → Option (List JVal × List Char)
  | 0, _ => none
  | fuel + 1, cs =>
    match parseValue fuel cs with
    | none => none
    | some (v, rest) =>
      match skipWs rest with
      | [] => none
      | c :: rest1 =>
        if c = ']' then some ([v], rest1)
        else if c = ',' then
          match parseElems fuel rest1 with
          | none => none
          | some (vs, rest2) => some (v :: vs, rest2)
        else none

/-- Parse a non-empty comma-separated list of object members followed by
the closing brace. -/
def parseFields : Nat → List Char → Option (List (String × JVal) × List Char)
  | 0, _ => none
  | fuel + 1, cs =>
    match skipWs cs with
    | [] => none
    | c :: cs1 =>
      if c = '"' then
        match parseStringBody cs1 with
        | none => none
        | some (k, rest) =>
          match skipWs rest with
          | [] => none
          | c2 :: rest1 =>
            if c2 = ':' then
              match parseValue fuel rest1 with
              | none => none
              | some (v, rest2) =>
                match skipWs rest2 with
                | [] => none
                | c3 :: rest3 =>
                  if c3 = rbrace then some ([(k, v)], rest3)
                  else if c3 = ',' then
                    match parseFields fuel rest3 with
                    | none => none
                    | some (fs, rest4) => some ((k, v) :: fs, rest4)
                  else none
            else none
      else none

end

/-- Model of the browser builtin `JSON.parse` over the subset of JSON exercised
by the script (strings with single-character escapes, integral numbers,
booleans, `null`, arrays, objects); `none` models a thrown `SyntaxError`.
The whole input must be consumed, up to trailing whitespace. -/
def jsonParse (s : String) : Option JVal :=
  match parseValue (s.length + 1) s.data with
  | none => none
  | some (v, rest) => if skipWs rest = [] then some v else none

example : jsonParse "\x7b\"reply\": \"Hello\"\x7d" =
    some (JVal.jobj [("reply", JVal.jstr "Hello")]) := rfl
example : jsonParse "ok" = none := rfl
example : jsonParse "" = none := rfl
example : jsonParse "null" = some JVal.jnull := rfl
example : jsonParse " [1, -2, true, \"x\"] " =
    some (JVal.jarr [JVal.jnum 1, JVal.jnum (-2), JVal.jbool true,
      JVal.jstr "x"]) := rfl
example : jsonParse "\x7b\"a\": \x7b\"b\": null\x7d\x7d" =
    some (JVal.jobj [("a", JVal.jobj [("b", JVal.jnull)])]) := rfl

/-- Model of JavaScript `String.prototype.trim` over the ASCII
whitespace characters (space, tab, carriage return, line feed): drop
leading and trailing whitespace. -/
def jsTrim (s : String) : String :=
  ⟨((s.data.dropWhile Char.isWhitespace).reverse.dropWhile
      Char.isWhitespace).reverse⟩

/-- JavaScript truthiness of a JSON value. -/
def jsTruthy : JVal → Bool
  | JVal.jnull => false
  | JVal.jbool b => b
  | JVal.jnum n => n ≠ 0
  | JVal.jstr s => s ≠ ""
  | JVal.jarr _ => true
  | JVal.jobj _ => true

mutual

/-- JavaScript string conversion of a JSON value, as performed by a
template literal or a `textContent` assignment. -/
def jvalToDisplay : JVal → String
  | JVal.jnull => "null"
  | JVal.jbool b => if b then "true" else "false"
  | JVal.jnum n => toString n
  | JVal.jstr s => s
  | JVal.jarr xs => jarrDisplay xs
  | JVal.jobj _ => "[object Object]"

/-- Display of an array, as `Array.prototype.toString`: elements joined by commas, `null`
rendering as the empty string. -/
def jarrDisplay : List JVal → String
  | [] => ""
  | [JVal.jnull] => ""
  | [x] => jvalToDisplay x
  | JVal.jnull :: xs => "," ++ jarrDisplay xs
  | x :: xs => jvalToDisplay x ++ "," ++ jarrDisplay xs

end

/-- Property lookup on a JavaScript object literal: with duplicate keys
the last occurrence wins, as after `JSON.parse`. -/
def objLookup (name : String) : List (String × JVal) → Option JVal
  | [] => none
  | (k, v) :: fs =>
    match objLookup name fs with
    | some r => some r
    | none => if k = name then some v else none

/-- Optional-chaining property access `data?.name` where `data` is the
structured parse result (`none` models JavaScript `null`, the value the
script stores on parse failure). Property access on primitives and
arrays yields `undefined` for the names the script uses, also `none`. -/
def optChainGet (data : Option JVal) (name : String) : Option JVal :=
  match data with
  | some (JVal.jobj fs) => objLookup name fs
  | _ => none

/-- Plain property access `j.name` (no optional chaining): on `null` it
throws a `TypeError`, modelled by `Except.error ()`. -/
def propGet : JVal → String → Except Unit (Option JVal)
  | JVal.jnull, _ => Except.error ()
  | JVal.jobj fs, name => Except.ok (objLookup name fs)
  | _, _ => Except.ok none

/-- The JavaScript `a || b` chain ending in a string, where `a` is a
possibly-undefined property value: the first truthy value wins,
stringified for display. -/
def jsOrText (v : Option JVal) (b : String) : String :=
  match v with
  | some x => if jsTruthy x then jvalToDisplay x else b
  | none => b

/-- A thrown JavaScript error object: its `message` property and its
string conversion, combined by the script as `e.message || e`. -/
structure JsError where
  message : String
  str : String
  deriving DecidableEq, Repr

/-- The `e.message || e` error-to-text coercion used by the script. -/
def jsErrToText (e : JsError) : String :=
  if e.message = "" then e.str else e.message

/-- Outcome of the `fetch` in `sendCmd`: either the promise resolves to a
response (any HTTP status) whose body text is read, or it rejects with an
error object. -/
inductive FetchOutcome where
  | resp (status : Nat) (statusText : String) (body : String)
  | reject (e : JsError)
  deriving DecidableEq, Repr

/-- The `Response.ok` flag: status in the inclusive range 200-299. -/
def respOk (status : Nat) : Bool :=
  200 ≤ status && status ≤ 299

/-- The dark-theme accent color used for non-error replies. -/
def darkAccent : String := "#8fffe0"

/-- The light-theme accent color used for non-error replies. -/
def lightAccent : String := "#035b9d"

/-- The color applied to error replies. -/
def errorColor : String := "#ff8a8a"

/-- The DOM state the script reads and writes: the reply element's text
and color, the send button's disabled flag, and the `light` class on the
body and the hero container. -/
structure UIState where
  replyText : String
  replyColor : String
  sendDisabled : Bool
  bodyLight : Bool
  heroLight : Bool
  deriving DecidableEq, Repr

/-- The helper `showReply(text, isError)`: sets the reply text and recolors it,
error replies in `errorColor`, others in the accent of the active theme. -/
def showReply (s : UIState) (text : String) (isError : Bool) : UIState :=
  { s with
    replyText := text
    replyColor :=
      if isError then errorColor
      else if s.bodyLight then lightAccent else darkAccent }

/-- The failure-branch detail `data?.reply || text || res.statusText`. -/
def errorDetail (data : Option JVal) (text statusText : String) : String :=
  jsOrText (optChainGet data "reply") (if text = "" then statusText else text)

/-- The success-branch reply `data?.reply ?? text ?? "(no reply)"`.
A present `reply` field whose value is `null` is nullish and falls
through; `res.text()` always resolves to a string, so the final
`"(no reply)"` fallback can never fire. -/
def successReply (data : Option JVal) (text : String) : String :=
  match optChainGet data "reply" with
  | some JVal.jnull => (some text).getD "(no reply)"
  | none => (some text).getD "(no reply)"
  | some v => jvalToDisplay v

/-- The body of the `try`/`catch` in `sendCmd` after the request was issued:
read the body text, attempt `JSON.parse` (failure stored as a null
result), then branch on `res.ok`; a rejected fetch lands in `catch`. -/
def handleOutcome (outcome : FetchOutcome) (s1 : UIState) : UIState :=
  match outcome with
  | FetchOutcome.resp status statusText body =>
    let text := body
    let data := jsonParse text
    if respOk status then
      showReply s1 (successReply data text) false
    else
      showReply s1 ("Server error " ++ toString status ++ ": " ++
        errorDetail data text statusText) true
  | FetchOutcome.reject e =>
    showReply s1 ("Network error: " ++ jsErrToText e) true

/-- The operation `sendCmd()` run to completion against a given fetch outcome.
Returns the final UI state and whether a network request was issued.
The empty-command check uses the trimmed input; the `finally` block
re-enables the send button on every path that entered the `try`. -/
def sendCmd (inputValue : String) (outcome : FetchOutcome) (s : UIState) :
    UIState × Bool :=
  let cmd := jsTrim inputValue
  if cmd = "" then (showReply s "Please type a command." true, false)
  else
    let s1 := { showReply s "Jarvis — thinking..." false with sendDisabled := true }
    ({ handleOutcome outcome s1 with sendDisabled := false }, true)

/-- Outcome of the `fetch` in the launch-button listener. -/
inductive LaunchResult where
  | reject (e : JsError)
  | resp (status : Nat) (body : String)
  deriving DecidableEq, Repr

/-- The launch-button click listener run to completion. `parseErr` is the
`SyntaxError` a failing `r.json()` rejects with; `typeErr` is the
`TypeError` thrown by `j.status` when the parsed value is `null`. The
HTTP status of a resolved response is never consulted. Returns the final
UI state and the number of POSTs issued (always one). -/
def launchClick (parseErr typeErr : JsError) (r : LaunchResult) (s : UIState) :
    UIState × Nat :=
  let s1 := showReply s "Launching assistant..." false
  match r with
  | LaunchResult.reject e =>
    (showReply s1 ("Launch failed: " ++ jsErrToText e) true, 1)
  | LaunchResult.resp _ body =>
    match jsonParse body with
    | none => (showReply s1 ("Launch failed: " ++ jsErrToText parseErr) true, 1)
    | some j =>
      match propGet j "status" with
      | Except.error _ =>
        (showReply s1 ("Launch failed: " ++ jsErrToText typeErr) true, 1)
      | Except.ok st => (showReply s1 (jsOrText st "Launch issued") false, 1)

/-- The theme-toggle change listener: flip the `light` class on the body
and the hero container, then recolor the reply text to the now-active
now-active accent. -/
def themeToggleChange (s : UIState) : UIState :=
  let bodyLight := !s.bodyLight
  let heroLight := !s.heroLight
  { s with
    bodyLight := bodyLight
    heroLight := heroLight
    replyColor := if bodyLight then lightAccent else darkAccent }

/-- Page state for the event-level model: the DOM state, the current
content of the command input, and how many command requests are in
flight. -/
structure PageState where
  ui : UIState
  inputValue : String
  inFlight : Nat
  deriving DecidableEq, Repr

/-- The synchronous prefix of `sendCmd`, up to and including the point
where the fetch is initiated: validation, the "thinking" status, and
disabling the send button. -/
def sendCmdStart (s : PageState) : PageState :=
  let cmd := jsTrim s.inputValue
  if cmd = "" then { s with ui := showReply s.ui "Please type a command." true }
  else
    { s with
      ui := { showReply s.ui "Jarvis — thinking..." false with sendDisabled := true }
      inFlight := s.inFlight + 1 }

/-- Settling of one in-flight command request: the rest of `sendCmd`
runs, ending with the `finally` that re-enables the send button. -/
def sendCmdSettle (outcome : FetchOutcome) (s : PageState) : PageState :=
  if s.inFlight = 0 then s
  else
    { s with
      ui := { handleOutcome outcome s.ui with sendDisabled := false }
      inFlight := s.inFlight - 1 }

/-- UI events relevant to the command console. A click on the send button
only fires while the button is enabled (disabled buttons dispatch no
click events); the keydown listener on the input invokes `sendCmd` for
every Enter press, with no guard. -/
inductive PageEvent where
  | setInput (text : String)
  | clickSend
  | keydown (key : String)
  | settle (outcome : FetchOutcome)
  | toggleTheme
  deriving DecidableEq, Repr

/-- One step of the UI event loop. -/
def step (s : PageState) : PageEvent → PageState
  | PageEvent.setInput t => { s with inputValue := t }
  | PageEvent.clickSend => if s.ui.sendDisabled then s else sendCmdStart s
  | PageEvent.keydown k => if k = "Enter" then sendCmdStart s else s
  | PageEvent.settle o => sendCmdSettle o s
  | PageEvent.toggleTheme => { s with ui := themeToggleChange s.ui }

/-- Run a sequence of UI events. -/
def runEvents (s : PageState) (evs : List PageEvent) : PageState :=
  evs.foldl step s

/-- The DOM state when the page has loaded: empty reply, dark theme,
send button enabled. -/
def initState : UIState :=
  { replyText := ""
    replyColor := darkAccent
    sendDisabled := false
    bodyLight := false
    heroLight := false }

/-- The page state when the page has loaded. -/
def pageInit : PageState :=
  { ui := initState, inputValue := "", inFlight := 0 }

/-- Does `needle` start `haystack`? -/
def startsList : List Char → List Char → Bool
  | _, [] => true
  | [], _ :: _ => false
  | c :: cs, d :: ds => c = d && startsList cs ds

/-- Does `needle` occur anywhere in `haystack`? -/
def occursIn (haystack needle : List Char) : Bool :=
  match haystack with
  | [] => needle.isEmpty
  | _ :: rest => startsList haystack needle || occursIn rest needle

/-- Substring test used to state the "contains" parts of the spec. -/
def containsStr (s sub : String) : Bool :=
  occursIn s.data sub.data

example : (sendCmd "hi" (FetchOutcome.resp 200 "OK" "\x7b\"reply\": \"Hello\"\x7d")
    initState).1.replyText = "Hello" := rfl
example : (sendCmd "hi" (FetchOutcome.resp 200 "OK" "ok") initState).1.replyText
    = "ok" := rfl
example : (sendCmd "hi" (FetchOutcome.resp 200 "OK" "") initState).1.replyText
    = "" := rfl
example : (sendCmd "hi" (FetchOutcome.resp 500 "Internal Server Error"
    "\x7b\"reply\": \"boom\"\x7d") initState).1.replyText
    = "Server error 500: boom" := rfl
example : (sendCmd "  " (FetchOutcome.reject ⟨"x", "x"⟩) initState).2 = false := rfl
example : (runEvents pageInit
    [PageEvent.setInput "hi", PageEvent.keydown "Enter",
     PageEvent.keydown "Enter"]).inFlight = 2 := rfl
example : (launchClick ⟨"pe", "pe"⟩ ⟨"te", "te"⟩ (LaunchResult.resp 500 "null")
    initState).1.replyText = "Launch failed: te" := rfl

/-- A page state with a typed command and no request in flight. -/
def pageReady : PageState :=
  { ui := initState, inputValue := "hi", inFlight := 0 }

/-- A page state with a typed command, one request in flight, and the
send button disabled. -/
def pageBusy : PageState :=
  { ui := { initState with sendDisabled := true }, inputValue := "hi",
    inFlight := 1 }

/-- The `reply` field of the parse result, seen through `data?.reply`, is
falsy: absent, `null`, `false`, `0`, or the empty string. -/
def replyFieldFalsy (data : Option JVal) : Bool :=
  match optChainGet data "reply" with
  | some v => !jsTruthy v
  | none => true

/-- The `status` field a successful `propGet` returns. -/
def statusField : JVal → Option JVal
  | JVal.jobj fs => objLookup "status" fs
  | _ => none

lemma sendCmd_run (input : String) (outcome : FetchOutcome) (s : UIState)
    (hin : jsTrim input ≠ "") :
    sendCmd input outcome s
      = ({ handleOutcome outcome
             { showReply s "Jarvis — thinking..." false with sendDisabled := true }
           with sendDisabled := false }, true) := by
  unfold sendCmd
  rw [if_neg hin]

lemma handleOutcome_ok (status : Nat) (statusText body : String) (s1 : UIState)
    (hok : respOk status = true) :
    handleOutcome (FetchOutcome.resp status statusText body) s1
      = showReply s1 (successReply (jsonParse body) body) false := by
  unfold handleOutcome
  simp [hok]

lemma handleOutcome_err (status : Nat) (statusText body : String) (s1 : UIState)
    (hok : respOk status = false) :
    handleOutcome (FetchOutcome.resp status statusText body) s1
      = showReply s1 ("Server error " ++ toString status ++ ": "
          ++ errorDetail (jsonParse body) body statusText) true := by
  unfold handleOutcome
  simp [hok]

lemma successReply_of_reply (data : Option JVal) (text : String) (v : JVal)
    (hv : optChainGet data "reply" = some v) (hnull : v ≠ JVal.jnull) :
    successReply data text = jvalToDisplay v := by
  unfold successReply
  rw [hv]
  cases v <;> first | rfl | exact absurd rfl hnull

lemma successReply_of_absent (data : Option JVal) (text : String)
    (hv : optChainGet data "reply" = none) :
    successReply data text = text := by
  unfold successReply
  rw [hv]
  rfl

lemma jsOrText_of_truthy (v : JVal) (b : String) (hv : jsTruthy v = true) :
    jsOrText (some v) b = jvalToDisplay v := by
  unfold jsOrText
  simp [hv]

lemma errorDetail_of_falsy (data : Option JVal) (text statusText : String)
    (hf : replyFieldFalsy data = true) :
    errorDetail data text statusText
      = (if text = "" then statusText else text) := by
  unfold errorDetail jsOrText
  unfold replyFieldFalsy at hf
  cases hr : optChainGet data "reply" with
  | none => rfl
  | some v =>
    rw [hr] at hf
    simp only [Bool.not_eq_true'] at hf
    simp [hf]

/-- C1: for a success (2xx) response, the displayed reply is the parsed
`reply` field of the parsed body when present and non-null, else the
raw response text; in particular a 200 response with body
`{"reply": "Hello"}` displays exactly `Hello`, and a 200 response whose
body is the non-JSON text `ok` displays exactly `ok`, the parse failure
yielding a null structured result while the request still completes. -/
theorem c1_success_reply_priority :
    (∀ (input : String) (status : Nat) (statusText body : String) (s : UIState),
      jsTrim input ≠ "" → respOk status = true →
      (∀ v : JVal, optChainGet (jsonParse body) "reply" = some v → v ≠ JVal.jnull →
        (sendCmd input (FetchOutcome.resp status statusText body) s).1.replyText
          = jvalToDisplay v)
      ∧ (optChainGet (jsonParse body) "reply" = none →
        (sendCmd input (FetchOutcome.resp status statusText body) s).1.replyText
          = body)
      ∧ (jsonParse body = none →
        (sendCmd input (FetchOutcome.resp status statusText body) s).1.replyText
          = body))
    ∧ (sendCmd "hi" (FetchOutcome.resp 200 "OK" "\x7b\"reply\": \"Hello\"\x7d")
        initState).1.replyText = "Hello"
    ∧ (sendCmd "hi" (FetchOutcome.resp 200 "OK" "ok") initState).1.replyText = "ok"
    ∧ jsonParse "ok" = none
    ∧ (sendCmd "hi" (FetchOutcome.resp 200 "OK" "ok") initState).2 = true := by
  refine ⟨?_, rfl, rfl, rfl, rfl⟩
  intro input status statusText body s hin hok
  rw [sendCmd_run input _ s hin]
  refine ⟨?_, ?_, ?_⟩
  · intro v hv hnull
    rw [handleOutcome_ok status statusText body _ hok,
      successReply_of_reply _ _ v hv hnull]
    rfl
  · intro hv
    rw [handleOutcome_ok status statusText body _ hok,
      successReply_of_absent _ _ hv]
    rfl
  · intro hp
    have hv : optChainGet (jsonParse body) "reply" = none := by
      rw [hp]
      rfl
    rw [handleOutcome_ok status statusText body _ hok,
      successReply_of_absent _ _ hv]
    rfl

/-- C1 witness: concrete success responses, one with a non-empty `reply`
field and one with an unparsable body. -/
theorem c1_success_reply_priority_witness :
    (sendCmd "open youtube" (FetchOutcome.resp 204 "No Content"
        "\x7b\"reply\": \"Opening\"\x7d") initState).1.replyText
      = jvalToDisplay (JVal.jstr "Opening")
    ∧ (sendCmd "open youtube" (FetchOutcome.resp 204 "No Content" "hm")
        initState).1.replyText = "hm" := by
  refine ⟨?_, ?_⟩
  · exact (c1_success_reply_priority.1 "open youtube" 204 "No Content"
      "\x7b\"reply\": \"Opening\"\x7d" initState (by decide) (by decide)).1
      (JVal.jstr "Opening") rfl (fun h => JVal.noConfusion h)
  · exact (c1_success_reply_priority.1 "open youtube" 204 "No Content" "hm"
      initState (by decide) (by decide)).2.2 rfl

/-- C2: the claim says an empty body on HTTP 200 displays the literal
`(no reply)` placeholder, matching the dead `?? "(no reply)"` fallback in
the source; but `res.text()` always resolves to a string, so the nullish
chain keeps the empty raw text and the code displays the empty string
instead. -/
theorem c2_empty_body_displays_empty_string :
    (sendCmd "what time is it" (FetchOutcome.resp 200 "OK" "") initState).1.replyText
      = ""
    ∧ (sendCmd "what time is it" (FetchOutcome.resp 200 "OK" "") initState).1.replyText
      ≠ "(no reply)" := by
  refine ⟨rfl, ?_⟩
  intro h
  have h2 : ("" : String) = "(no reply)" := Eq.trans (by rfl) h
  exact absurd h2 (by decide)

/-- C3: an input that is empty after trimming short-circuits `sendCmd`:
no request is issued and the validation message is shown in the error
color. -/
theorem c3_blank_input_short_circuits (input : String) (outcome : FetchOutcome)
    (s : UIState) (h : jsTrim input = "") :
    (sendCmd input outcome s).2 = false
    ∧ (sendCmd input outcome s).1.replyText = "Please type a command."
    ∧ (sendCmd input outcome s).1.replyColor = errorColor := by
  unfold sendCmd
  rw [if_pos h]
  exact ⟨rfl, rfl, rfl⟩

/-- C3 witness: a whitespace-only input with a would-be response. -/
lemma errorDetail_of_truthy (data : Option JVal) (text statusText : String)
    (v : JVal) (hv : optChainGet data "reply" = some v)
    (ht : jsTruthy v = true) :
    errorDetail data text statusText = jvalToDisplay v := by
  unfold errorDetail
  rw [hv, jsOrText_of_truthy _ _ ht]

/-- C4: for a non-2xx response, the displayed text is
`Server error <status>: <detail>` in the error color, where the detail
is, in priority order, the truthy `reply` field of the parsed body, else
the non-empty raw body text, else the HTTP status phrase; in particular
HTTP 500 with body `{"reply": "boom"}` displays text containing both
`500` and `boom`. -/
theorem c4_failure_error_priority :
    (∀ (input : String) (status : Nat) (statusText body : String) (s : UIState),
      jsTrim input ≠ "" → respOk status = false →
      (∀ v : JVal, optChainGet (jsonParse body) "reply" = some v →
        jsTruthy v = true →
        (sendCmd input (FetchOutcome.resp status statusText body) s).1.replyText
          = "Server error " ++ toString status ++ ": " ++ jvalToDisplay v)
      ∧ (replyFieldFalsy (jsonParse body) = true → body ≠ "" →
        (sendCmd input (FetchOutcome.resp status statusText body) s).1.replyText
          = "Server error " ++ toString status ++ ": " ++ body)
      ∧ (replyFieldFalsy (jsonParse body) = true → body = "" →
        (sendCmd input (FetchOutcome.resp status statusText body) s).1.replyText
          = "Server error " ++ toString status ++ ": " ++ statusText)
      ∧ (sendCmd input (FetchOutcome.resp status statusText body) s).1.replyColor
          = errorColor)
    ∧ containsStr (sendCmd "hi" (FetchOutcome.resp 500 "Internal Server Error"
        "\x7b\"reply\": \"boom\"\x7d") initState).1.replyText "500" = true
    ∧ containsStr (sendCmd "hi" (FetchOutcome.resp 500 "Internal Server Error"
        "\x7b\"reply\": \"boom\"\x7d") initState).1.replyText "boom" = true := by
  refine ⟨?_, rfl, rfl⟩
  intro input status statusText body s hin hok
  rw [sendCmd_run input _ s hin]
  refine ⟨?_, ?_, ?_, ?_⟩
  · intro v hv ht
    rw [handleOutcome_err status statusText body _ hok,
      errorDetail_of_truthy _ _ _ v hv ht]
    rfl
  · intro hf hbody
    rw [handleOutcome_err status statusText body _ hok,
      errorDetail_of_falsy _ _ _ hf, if_neg hbody]
    rfl
  · intro hf hbody
    rw [handleOutcome_err status statusText body _ hok,
      errorDetail_of_falsy _ _ _ hf, if_pos hbody]
    rfl
  · rw [handleOutcome_err status statusText body _ hok]
    rfl

/-- C4 witness: an HTTP 404 whose body has a truthy `reply` field, and an
HTTP 502 with an empty body falling back to the status phrase. -/
theorem c4_failure_error_priority_witness :
    (sendCmd "hi" (FetchOutcome.resp 404 "Not Found"
        "\x7b\"reply\": \"no handler\"\x7d") initState).1.replyText
      = "Server error 404: " ++ jvalToDisplay (JVal.jstr "no handler")
    ∧ (sendCmd "hi" (FetchOutcome.resp 502 "Bad Gateway" "")
        initState).1.replyText = "Server error 502: Bad Gateway" := by
  refine ⟨?_, ?_⟩
  · exact (c4_failure_error_priority.1 "hi" 404 "Not Found"
      "\x7b\"reply\": \"no handler\"\x7d" initState (by decide) (by decide)).1
      (JVal.jstr "no handler") rfl rfl
  · exact (c4_failure_error_priority.1 "hi" 502 "Bad Gateway" "" initState
      (by decide) (by decide)).2.2.1 rfl rfl

/-- C5: when the fetch rejects, the displayed text is the fixed prefix
`Network error: ` followed by the error-to-text coercion of the failure,
in the error color; in particular a rejection whose message is
`Failed to fetch` displays text containing both `Network error` and
`Failed to fetch`. -/
theorem c5_network_failure :
    (∀ (input : String) (e : JsError) (s : UIState), jsTrim input ≠ "" →
      (sendCmd input (FetchOutcome.reject e) s).1.replyText
        = "Network error: " ++ jsErrToText e
      ∧ (sendCmd input (FetchOutcome.reject e) s).1.replyColor = errorColor)
    ∧ containsStr (sendCmd "hi" (FetchOutcome.reject
        ⟨"Failed to fetch", "TypeError: Failed to fetch"⟩)
        initState).1.replyText "Network error" = true
    ∧ containsStr (sendCmd "hi" (FetchOutcome.reject
        ⟨"Failed to fetch", "TypeError: Failed to fetch"⟩)
        initState).1.replyText "Failed to fetch" = true := by
  refine ⟨?_, rfl, rfl⟩
  intro input e s hin
  rw [sendCmd_run input _ s hin]
  exact ⟨rfl, rfl⟩

/-- C5 witness: a concrete rejected request. -/
theorem c5_network_failure_witness :
    (sendCmd "hi" (FetchOutcome.reject ⟨"Failed to fetch",
        "TypeError: Failed to fetch"⟩) initState).1.replyText
      = "Network error: "
        ++ jsErrToText ⟨"Failed to fetch", "TypeError: Failed to fetch"⟩
    ∧ (sendCmd "hi" (FetchOutcome.reject ⟨"Failed to fetch",
        "TypeError: Failed to fetch"⟩) initState).1.replyColor = errorColor :=
  c5_network_failure.1 "hi" ⟨"Failed to fetch", "TypeError: Failed to fetch"⟩
    initState (by decide)

/-- C6: every completed submission, whatever the outcome of the request
(success status, error status, or rejected fetch), ends with the send
button re-enabled by the `finally` block. -/
theorem c6_send_button_reenabled (input : String) (outcome : FetchOutcome)
    (s : UIState) (h : jsTrim input ≠ "") :
    (sendCmd input outcome s).1.sendDisabled = false := by
  rw [sendCmd_run input outcome s h]

/-- C6 witness: the three exit paths at concrete inputs. -/
theorem c6_send_button_reenabled_witness :
    (sendCmd "hi" (FetchOutcome.resp 200 "OK" "x") initState).1.sendDisabled
      = false
    ∧ (sendCmd "hi" (FetchOutcome.resp 500 "Internal Server Error" "x")
        initState).1.sendDisabled = false
    ∧ (sendCmd "hi" (FetchOutcome.reject ⟨"Failed to fetch", "e"⟩)
        initState).1.sendDisabled = false :=
  ⟨c6_send_button_reenabled "hi" (FetchOutcome.resp 200 "OK" "x") initState
      (by decide),
   c6_send_button_reenabled "hi" (FetchOutcome.resp 500 "Internal Server Error"
      "x") initState (by decide),
   c6_send_button_reenabled "hi" (FetchOutcome.reject ⟨"Failed to fetch", "e"⟩)
      initState (by decide)⟩

/-- C9: one theme-toggle change flips the `light` class on both the body
and the hero container, and toggling twice restores the body theme
class exactly. -/
theorem c9_theme_toggle_involution (s : UIState) :
    (themeToggleChange (themeToggleChange s)).bodyLight = s.bodyLight
    ∧ (themeToggleChange s).bodyLight = !s.bodyLight
    ∧ (themeToggleChange s).heroLight = !s.heroLight := by
  refine ⟨?_, rfl, rfl⟩
  simp [themeToggleChange]

/-- C7 counterexample: the claim that no reachable state of the UI event
loop has two command requests in flight is false. The send button is
disabled while a request is in flight, but the keydown listener invokes
`sendCmd` on every Enter press without consulting the disabled flag, so
typing a command and pressing Enter twice puts two requests in flight. -/
theorem c7_two_requests_in_flight :
    (runEvents pageInit [PageEvent.setInput "hi", PageEvent.keydown "Enter",
        PageEvent.keydown "Enter"]).inFlight = 2
    ∧ ¬ ∀ evs : List PageEvent, (runEvents pageInit evs).inFlight ≤ 1 := by
  refine ⟨rfl, ?_⟩
  intro h
  have h2 := h [PageEvent.setInput "hi", PageEvent.keydown "Enter",
    PageEvent.keydown "Enter"]
  exact absurd h2 (by decide)

/-- C7 amended: starting a submission with a non-blank input disables the
send button, shows the transient thinking status, and puts one more
request in flight; a click on the send button while it is disabled is a
no-op, so submissions are serialized through the button control only —
the Enter-key path is not guarded, and two requests can be in flight at
once from the same page. -/
theorem c7_in_flight_disables_button :
    (∀ s : PageState, jsTrim s.inputValue ≠ "" →
      (sendCmdStart s).ui.sendDisabled = true
      ∧ (sendCmdStart s).ui.replyText = "Jarvis — thinking..."
      ∧ (sendCmdStart s).inFlight = s.inFlight + 1)
    ∧ (∀ s : PageState, s.ui.sendDisabled = true →
      step s PageEvent.clickSend = s) := by
  refine ⟨?_, ?_⟩
  · intro s hin
    unfold sendCmdStart
    rw [if_neg hin]
    exact ⟨rfl, rfl, rfl⟩
  · intro s hdis
    unfold step
    rw [hdis]
    rfl

/-- C7 witness: one concrete started submission and one concrete ignored
click on the disabled button. -/
theorem c7_in_flight_disables_button_witness :
    ((sendCmdStart pageReady).ui.sendDisabled = true
      ∧ (sendCmdStart pageReady).ui.replyText = "Jarvis — thinking..."
      ∧ (sendCmdStart pageReady).inFlight = 1)
    ∧ step pageBusy PageEvent.clickSend = pageBusy :=
  ⟨c7_in_flight_disables_button.1 pageReady (by decide),
   c7_in_flight_disables_button.2 pageBusy rfl⟩

lemma launchClick_resp_parsed (pe te : JsError) (status : Nat) (body : String)
    (s : UIState) (j : JVal) (h : jsonParse body = some j)
    (hj : j ≠ JVal.jnull) :
    launchClick pe te (LaunchResult.resp status body) s
      = (showReply (showReply s "Launching assistant..." false)
          (jsOrText (statusField j) "Launch issued") false, 1) := by
  simp only [launchClick]
  rw [h]
  cases j <;> first | exact absurd rfl hj | rfl

/-- C8: the launch listener always issues exactly one POST; when the
response body parses to an object it displays the `status` field when
that field is a non-empty string and the default `Launch issued` when
the field is absent; when the fetch rejects it displays the fixed prefix
`Launch failed: ` followed by the error-to-text coercion of the failure,
in the error color. -/
theorem c8_launch_behaviour :
    (∀ (pe te : JsError) (r : LaunchResult) (s : UIState),
      (launchClick pe te r s).2 = 1)
    ∧ (∀ (pe te : JsError) (status : Nat) (body : String) (s : UIState)
        (fs : List (String × JVal)) (st : String),
      jsonParse body = some (JVal.jobj fs) →
      objLookup "status" fs = some (JVal.jstr st) → st ≠ "" →
      (launchClick pe te (LaunchResult.resp status body) s).1.replyText = st)
    ∧ (∀ (pe te : JsError) (status : Nat) (body : String) (s : UIState)
        (fs : List (String × JVal)),
      jsonParse body = some (JVal.jobj fs) →
      objLookup "status" fs = none →
      (launchClick pe te (LaunchResult.resp status body) s).1.replyText
        = "Launch issued")
    ∧ (∀ (pe te e : JsError) (s : UIState),
      (launchClick pe te (LaunchResult.reject e) s).1.replyText
        = "Launch failed: " ++ jsErrToText e
      ∧ (launchClick pe te (LaunchResult.reject e) s).1.replyColor
        = errorColor) := by
  refine ⟨?_, ?_, ?_, ?_⟩
  · intro pe te r s
    cases r with
    | reject e => rfl
    | resp status body =>
      simp only [launchClick]
      cases h : jsonParse body with
      | none => rfl
      | some j => cases j <;> rfl
  · intro pe te status body s fs st h hst hne
    have ht : jsTruthy (JVal.jstr st) = true := by
      unfold jsTruthy
      exact decide_eq_true hne
    rw [launchClick_resp_parsed pe te status body s _ h
      (fun hn => JVal.noConfusion hn)]
    show jsOrText (objLookup "status" fs) "Launch issued" = st
    rw [hst, jsOrText_of_truthy _ _ ht]
    rfl
  · intro pe te status body s fs h hst
    rw [launchClick_resp_parsed pe te status body s _ h
      (fun hn => JVal.noConfusion hn)]
    show jsOrText (objLookup "status" fs) "Launch issued" = "Launch issued"
    rw [hst]
    rfl
  · intro pe te e s
    exact ⟨rfl, rfl⟩

/-- C8 witness: a response whose body carries a non-empty `status` string
and a response whose body is an object without a `status` field. -/
theorem c8_launch_behaviour_witness :
    (launchClick ⟨"pe", "pe"⟩ ⟨"te", "te"⟩
        (LaunchResult.resp 200 "\x7b\"status\": \"Jarvis launching\"\x7d")
        initState).1.replyText = "Jarvis launching"
    ∧ (launchClick ⟨"pe", "pe"⟩ ⟨"te", "te"⟩
        (LaunchResult.resp 500 "\x7b\"other\": 1\x7d")
        initState).1.replyText = "Launch issued" :=
  ⟨c8_launch_behaviour.2.1 ⟨"pe", "pe"⟩ ⟨"te", "te"⟩ 200
      "\x7b\"status\": \"Jarvis launching\"\x7d" initState
      [("status", JVal.jstr "Jarvis launching")] "Jarvis launching" rfl rfl
      (by decide),
   c8_launch_behaviour.2.2.1 ⟨"pe", "pe"⟩ ⟨"te", "te"⟩ 500
      "\x7b\"other\": 1\x7d" initState [("other", JVal.jnum 1)] rfl rfl⟩

/-- C10 counterexample: a launch response whose body is the JSON text
`null` parses successfully, yet the listener reaches the error branch:
the property access `j.status` on the parsed `null` throws a `TypeError`
that is caught and reported as `Launch failed`. -/
theorem c10_null_body_reaches_error_branch :
    (jsonParse "null").isSome = true
    ∧ (launchClick ⟨"Unexpected end of JSON input", "SyntaxError"⟩
        ⟨"Cannot read properties of null", "TypeError"⟩
        (LaunchResult.resp 200 "null") initState).1.replyColor = errorColor
    ∧ containsStr (launchClick ⟨"Unexpected end of JSON input", "SyntaxError"⟩
        ⟨"Cannot read properties of null", "TypeError"⟩
        (LaunchResult.resp 200 "null") initState).1.replyText "Launch failed"
      = true :=
  ⟨rfl, rfl, rfl⟩

/-- C10 amended: the launch listener never consults the HTTP response
status; for every response whose body parses as JSON to a non-null
value, including non-2xx responses, it displays the `status` field or
the default `Launch issued` without error styling, and the error branch
is reached exactly when the fetch rejects, the body fails to parse as
JSON, or the body parses to JSON `null` (where the `status` property
access throws). -/
theorem c10_launch_ignores_http_status :
    (∀ (pe te : JsError) (status status2 : Nat) (body : String) (s : UIState),
      launchClick pe te (LaunchResult.resp status body) s
        = launchClick pe te (LaunchResult.resp status2 body) s)
    ∧ (∀ (pe te : JsError) (status : Nat) (body : String) (s : UIState)
        (j : JVal), jsonParse body = some j → j ≠ JVal.jnull →
      (launchClick pe te (LaunchResult.resp status body) s).1.replyText
        = jsOrText (statusField j) "Launch issued"
      ∧ (launchClick pe te (LaunchResult.resp status body) s).1.replyColor
        ≠ errorColor)
    ∧ (∀ (pe te : JsError) (status : Nat) (body : String) (s : UIState),
      jsonParse body = none →
      (launchClick pe te (LaunchResult.resp status body) s).1.replyText
        = "Launch failed: " ++ jsErrToText pe
      ∧ (launchClick pe te (LaunchResult.resp status body) s).1.replyColor
        = errorColor)
    ∧ (∀ (pe te : JsError) (status : Nat) (body : String) (s : UIState),
      jsonParse body = some JVal.jnull →
      (launchClick pe te (LaunchResult.resp status body) s).1.replyText
        = "Launch failed: " ++ jsErrToText te
      ∧ (launchClick pe te (LaunchResult.resp status body) s).1.replyColor
        = errorColor) := by
  refine ⟨?_, ?_, ?_, ?_⟩
  · intro pe te status status2 body s
    rfl
  · intro pe te status body s j h hj
    rw [launchClick_resp_parsed pe te status body s j h hj]
    refine ⟨rfl, ?_⟩
    show (if s.bodyLight then lightAccent else darkAccent) ≠ errorColor
    cases hb : s.bodyLight
    · decide
    · decide
  · intro pe te status body s h
    simp only [launchClick]
    rw [h]
    exact ⟨rfl, rfl⟩
  · intro pe te status body s h
    simp only [launchClick]
    rw [h]
    exact ⟨rfl, rfl⟩

/-- C10 witness: a non-2xx response with an object body is displayed
without error styling, and a body parsing to JSON `null` reaches the
error branch. -/
theorem c10_launch_ignores_http_status_witness :
    ((launchClick ⟨"pe", "pe"⟩ ⟨"te", "te"⟩ (LaunchResult.resp 500 "\x7b\x7d")
        initState).1.replyText = jsOrText (statusField (JVal.jobj []))
          "Launch issued"
      ∧ (launchClick ⟨"pe", "pe"⟩ ⟨"te", "te"⟩ (LaunchResult.resp 500 "\x7b\x7d")
        initState).1.replyColor ≠ errorColor)
    ∧ ((launchClick ⟨"pe", "pe"⟩ ⟨"te", "te"⟩ (LaunchResult.resp 200 "null")
        initState).1.replyText = "Launch failed: " ++ jsErrToText ⟨"te", "te"⟩
      ∧ (launchClick ⟨"pe", "pe"⟩ ⟨"te", "te"⟩ (LaunchResult.resp 200 "null")
        initState).1.replyColor = errorColor) :=
  ⟨c10_launch_ignores_http_status.2.1 ⟨"pe", "pe"⟩ ⟨"te", "te"⟩ 500 "\x7b\x7d"
      initState (JVal.jobj []) rfl (fun hn => JVal.noConfusion hn),
   c10_launch_ignores_http_status.2.2.2 ⟨"pe", "pe"⟩ ⟨"te", "te"⟩ 200 "null"
      initState rfl⟩

theorem c3_blank_input_short_circuits_witness :
    (sendCmd "   " (FetchOutcome.resp 200 "OK" "x") initState).2 = false
    ∧ (sendCmd "   " (FetchOutcome.resp 200 "OK" "x") initState).1.replyText
      = "Please type a command."
    ∧ (sendCmd "   " (FetchOutcome.resp 200 "OK" "x") initState).1.replyColor
      = errorColor :=
  c3_blank_input_short_circuits "   " (FetchOutcome.resp 200 "OK" "x") initState
    (by decide)

end VexUI
